import Mathlib

/-!
Verification model of the two ArcGIS MapServer feature providers
(`arcgis_mapserver.py` and `arcgis_mapserver_standalone.py`).

Modelling conventions:
* JSON / Python values are the inductive `PyVal`; Python numbers are
  modelled as integers (`Int`), which is enough for every property here
  (none depends on fractional coordinates).
* Python exceptions are the `PErr` type and fallible code returns
  `Except PErr`; `AttributeError` from calling `.get` on a non-dict,
  `ValueError` from `float(...)`, `KeyError` and `TypeError` from
  subscripting are all modelled.
* The shapely library calls (`Polygon(r).is_valid`, `is_empty`,
  `orient(..., sign=1.0)`) and the arcgis2geojson `convert` call are
  external to the repository; they are modelled from the spec together
  with the libraries' documented behaviour, see the doc comments on
  `polyIsValid`, `orientRing` and `convert`.
-/

namespace ArcGIS

/-- Python/JSON values as consumed and produced by the providers. -/
inductive PyVal where
  | none
  | boolV (b : Bool)
  | intV (n : Int)
  | strV (s : String)
  | listV (xs : List PyVal)
  | dictV (kvs : List (String × PyVal))

/-- Python truthiness (`bool(v)`). -/
def truthy : PyVal → Bool
  | .none => false
  | .boolV b => b
  | .intV n => n != 0
  | .strV s => s != ""
  | .listV xs => !xs.isEmpty
  | .dictV kvs => !kvs.isEmpty

/-- Truthiness of an optional value (`None` when absent). -/
def truthyOpt : Option PyVal → Bool
  | some v => truthy v
  | Option.none => false

/-- Modelled Python exceptions. -/
inductive PErr where
  | providerQueryError (msg : String)
  | valueError (msg : String)
  | attributeError (msg : String)
  | typeError (msg : String)
  | keyError (msg : String)
  | indexError (msg : String)
deriving DecidableEq, Repr

/-- Message text of an exception (`str(err)`). -/
def errText : PErr → String
  | .providerQueryError m => m
  | .valueError m => m
  | .attributeError m => m
  | .typeError m => m
  | .keyError m => m
  | .indexError m => m

/-- Total dictionary lookup: `d.get(k)` when `d` is known to be a dict
(absent keys give `None`, like Python); non-dicts give `None` (callers
that might crash use `pyDictGet` instead). -/
def pyGet (v : PyVal) (k : String) : PyVal :=
  match v with
  | .dictV kvs => match kvs.lookup k with
    | some x => x
    | Option.none => .none
  | _ => .none

/-- Total dictionary lookup with default: `d.get(k, dflt)` on a dict. -/
def pyGetD (v : PyVal) (k : String) (dflt : PyVal) : PyVal :=
  match v with
  | .dictV kvs => match kvs.lookup k with
    | some x => x
    | Option.none => dflt
  | _ => dflt

/-- Fallible `.get` call: raises `AttributeError` when the receiver is not
a dict (e.g. `None.get(...)` in Python). -/
def pyDictGet (v : PyVal) (k : String) : Except PErr PyVal :=
  match v with
  | .dictV kvs => .ok (match kvs.lookup k with
    | some x => x
    | Option.none => PyVal.none)
  | _ => .error (.attributeError "object has no attribute get")

/-- Fallible `.get(k, dflt)` call with a default. -/
def pyDictGetD (v : PyVal) (k : String) (dflt : PyVal) : Except PErr PyVal :=
  match v with
  | .dictV kvs => .ok (match kvs.lookup k with
    | some x => x
    | Option.none => dflt)
  | _ => .error (.attributeError "object has no attribute get")

/-- Python `in` test on a dict (key membership), a list (string element
membership suffices here) or a string (substring); other receivers raise
`TypeError`. -/
def pyContains (v : PyVal) (k : String) : Except PErr Bool :=
  match v with
  | .dictV kvs => .ok (kvs.any (fun kv => kv.1 == k))
  | .listV xs => .ok (xs.any (fun x => match x with
    | .strV s => s == k
    | _ => false))
  | .strV s => .ok (decide (List.IsInfix k.data s.data))
  | _ => .error (.typeError "argument is not iterable")

/-- Python subscript `v[k]` with a string key. -/
def pyIndexKey (v : PyVal) (k : String) : Except PErr PyVal :=
  match v with
  | .dictV kvs => match kvs.lookup k with
    | some x => .ok x
    | Option.none => .error (.keyError k)
  | _ => .error (.typeError "object is not subscriptable")

/-- Python `len(v)`. -/
def pyLen (v : PyVal) : Except PErr Int :=
  match v with
  | .listV xs => .ok xs.length
  | .strV s => .ok s.length
  | .dictV kvs => .ok kvs.length
  | _ => .error (.typeError "object has no len")

/-- Python subscript `v[0]`. -/
def pyIndex0 (v : PyVal) : Except PErr PyVal :=
  match v with
  | .listV (x :: _) => .ok x
  | .listV [] => .error (.indexError "list index out of range")
  | _ => .error (.typeError "object is not subscriptable")

/-- Python short-circuit `a or b` (value-returning). -/
def pyOr (a b : PyVal) : PyVal :=
  if truthy a then a else b

/-- Whether a value is a dict (`isinstance(v, dict)`). -/
def isDict : PyVal → Bool
  | .dictV _ => true
  | _ => false

/-- Whether a value is a Python number (`bool` counts as a number). -/
def isNum : PyVal → Bool
  | .intV _ => true
  | .boolV _ => true
  | _ => false

/-- Key membership in a dict value, `false` on non-dicts. -/
def hasKeyB (v : PyVal) (k : String) : Bool :=
  match v with
  | .dictV kvs => kvs.any (fun kv => kv.1 == k)
  | _ => false

/-- Digit-run parser (base 10) over a character list. -/
def parseDigits : List Char → Option Nat
  | [] => Option.none
  | cs =>
    if cs.all Char.isDigit then
      some (cs.foldl (fun acc c => acc * 10 + (c.toNat - 48)) 0)
    else Option.none

/-- Integer parsing of a decimal string with an optional leading minus. -/
def pyParseInt (s : String) : Option Int :=
  match s.data with
  | '-' :: rest => (parseDigits rest).map (fun n => -(n : Int))
  | cs => (parseDigits cs).map (fun n => (n : Int))

/-- Python `float(x)` with numbers modelled as integers: accepts ints,
bools and numeric (integer) strings, raises `ValueError` / `TypeError`
otherwise. -/
def pyFloat (v : PyVal) : Except PErr Int :=
  match v with
  | .intV n => .ok n
  | .boolV b => .ok (if b then 1 else 0)
  | .strV s =>
    match pyParseInt s with
    | some n => .ok n
    | Option.none => .error (.valueError ("could not convert string to float: " ++ s))
  | _ => .error (.typeError "float argument must be a string or a real number")

/-- Python `str(v)` for the scalar values reaching f-strings here. -/
def pyStr : PyVal → String
  | .none => "None"
  | .boolV b => if b then "True" else "False"
  | .intV n => toString n
  | .strV s => s
  | .listV _ => "[...]"
  | .dictV _ => "..."

/-! ## Planar geometry: shoelace signed area and ring validity

Coordinates are integer pairs.  `signedArea2` is twice the signed area of
the implicitly-closed ring (shoelace formula); counter-clockwise rings
have positive signed area, matching shapely's convention. -/

/-- A planar point. -/
abbrev Pt := Int × Int

/-- Cross product term of the shoelace formula. -/
def cross (p q : Pt) : Int := p.1 * q.2 - q.1 * p.2

/-- Sum of cross terms along the path `p :: l`. -/
def pathSum : Pt → List Pt → Int
  | _, [] => 0
  | p, q :: rest => cross p q + pathSum q rest

/-- Twice the signed area of the implicitly-closed ring (shoelace). -/
def signedArea2 : List Pt → Int
  | [] => 0
  | p :: ps => pathSum p (ps ++ [p])

/-- Shapely closes a ring on construction: append the first point when the
ring is not already closed (`Polygon(r).exterior.coords`). -/
def closeRing : List Pt → List Pt
  | [] => []
  | p :: ps => if (p :: ps).getLast? = some p then p :: ps else (p :: ps) ++ [p]

/-- Modelled from the spec and shapely's documented behaviour:
`orient(Polygon(r), sign=1.0)` keeps the exterior ring when its signed
area is already nonnegative and reverses it otherwise, so the exterior
comes out counter-clockwise. -/
def orientRing (r : List Pt) : List Pt :=
  if 0 ≤ signedArea2 r then r else r.reverse

/-- Orientation of `b` around segment `o`–`a` (cross of differences). -/
def orient3 (o a b : Pt) : Int :=
  (a.1 - o.1) * (b.2 - o.2) - (a.2 - o.2) * (b.1 - o.1)

/-- Bounding-box membership used by the segment intersection test for
collinear configurations. -/
def onSeg (a b p : Pt) : Bool :=
  decide (min a.1 b.1 ≤ p.1 ∧ p.1 ≤ max a.1 b.1 ∧ min a.2 b.2 ≤ p.2 ∧ p.2 ≤ max a.2 b.2)

/-- Whether the closed segments `p1`–`q1` and `p2`–`q2` intersect. -/
def segsIntersect (p1 q1 p2 q2 : Pt) : Bool :=
  let d1 := orient3 p2 q2 p1
  let d2 := orient3 p2 q2 q1
  let d3 := orient3 p1 q1 p2
  let d4 := orient3 p1 q1 q2
  (((d1 > 0 && d2 < 0) || (d1 < 0 && d2 > 0)) &&
   ((d3 > 0 && d4 < 0) || (d3 < 0 && d4 > 0))) ||
  (d1 == 0 && onSeg p2 q2 p1) ||
  (d2 == 0 && onSeg p2 q2 q1) ||
  (d3 == 0 && onSeg p1 q1 p2) ||
  (d4 == 0 && onSeg p1 q1 q2)

/-- Whether two edges sharing the vertex `v` (other endpoints `a`, `b`)
overlap beyond the shared vertex: collinear and pointing the same way. -/
def adjacentOverlap (a v b : Pt) : Bool :=
  orient3 v a b == 0 &&
    decide (0 < (a.1 - v.1) * (b.1 - v.1) + (a.2 - v.2) * (b.2 - v.2))

/-- Vertex `i` of the implicitly-closed ring. -/
def ptAt (r : List Pt) (i : Nat) : Pt := r.getD (i % r.length) (0, 0)

/-- Simplicity of the implicitly-closed ring: no two non-adjacent edges
intersect and adjacent edges do not fold back onto each other. -/
def isSimpleRing (r : List Pt) : Bool :=
  let n := r.length
  (List.range n).all fun i =>
    (List.range n).all fun j =>
      if i < j then
        if j == i + 1 then
          !(adjacentOverlap (ptAt r i) (ptAt r j) (ptAt r (j + 1)))
        else if i == 0 && j == n - 1 then
          !(adjacentOverlap (ptAt r 1) (ptAt r 0) (ptAt r j))
        else
          !(segsIntersect (ptAt r i) (ptAt r (i + 1)) (ptAt r j) (ptAt r (j + 1)))
      else true

/-- Modelled from the spec (... rings that are geometrically invalid
(self-intersecting, zero-area) or empty are dropped ...) and shapely's
`Polygon(r).is_valid`: the empty polygon is valid, and a nonempty ring is
valid when it has at least 3 points, is simple, and has nonzero area.
Shapely raises on 1-2 point rings; following the spec those are treated
as invalid and dropped. -/
def polyIsValid (r : List Pt) : Bool :=
  r.isEmpty || (decide (3 ≤ r.length) && isSimpleRing r && signedArea2 r != 0)

/-- Shapely `Polygon(r).is_empty`: no coordinates. -/
def polyIsEmpty (r : List Pt) : Bool := r.isEmpty

/-- The filter predicate of `_esri_rings_to_geojson`:
`Polygon(r).is_valid and not Polygon(r).is_empty`. -/
def polyKept (r : List Pt) : Bool := polyIsValid r && !(polyIsEmpty r)

/-- GeoJSON geometries produced by the standalone normalizer. -/
inductive Geom where
  | point (x y : Int)
  | polygon (rings : List (List Pt))
  | multiPolygon (polys : List (List (List Pt)))
deriving DecidableEq

/-- Model of `_esri_rings_to_geojson` (standalone provider, lines 117-131):
empty ring set gives no geometry; rings failing the shapely validity/
emptiness filter are dropped; each survivor is closed and oriented
counter-clockwise; one survivor yields a `Polygon`, several yield a
`MultiPolygon` whose members are oriented once more by the outer
`orient(mp, sign=1.0)` call. -/
def esri_rings_to_geojson (rings : List (List Pt)) : Option Geom :=
  if rings.isEmpty then Option.none
  else
    match (rings.filter polyKept).map (fun r => orientRing (closeRing r)) with
    | [] => Option.none
    | [p] => some (Geom.polygon [p])
    | ps => some (Geom.multiPolygon (ps.map (fun q => [orientRing q])))

/-- Exterior rings of a GeoJSON geometry (first ring of each polygon). -/
def exteriors : Geom → List (List Pt)
  | .point _ _ => []
  | .polygon rs => rs.take 1
  | .multiPolygon ps => ps.filterMap List.head?

/-! ## The library-based provider (`arcgis_mapserver.py`)

Features are the mutable dicts the provider assembles; only the four keys
it ever touches are modelled, as fields of `Feat`. -/

/-- A GeoJSON feature dict with the keys the provider reads and writes. -/
structure Feat where
  typ : String
  fid : PyVal
  geometry : PyVal
  properties : PyVal

/-- Modelled from the spec (§4.4 and the external arcgis2geojson library):
geometry conversion of one ESRI geometry object. The point shape
(numeric `x`/`y`) yields a GeoJSON Point; every other shape yields absent
geometry. The library's ring conversion is not modelled because no claim
depends on it — the ring-based claims target the standalone provider's
`_esri_rings_to_geojson`. -/
def convertGeom (g : PyVal) : PyVal :=
  if isNum (pyGet g "x") && isNum (pyGet g "y") then
    .dictV [("type", .strV "Point"), ("coordinates", .listV [pyGet g "x", pyGet g "y"])]
  else .none

/-- Modelled from the spec (§4.5) and the external arcgis2geojson
`convert(item, idAttribute=...)` call: an item carrying a `geometry` or
`attributes` key becomes a Feature whose geometry is the converted
geometry (or `None` when the raw geometry is falsy) and whose properties
are the raw `attributes` value when truthy, `None` otherwise; any other
item becomes an empty dict, whose later `.get('properties', {})` reads
give `{}`. The library's own id assignment is elided because both call
sites overwrite the id immediately. -/
def convert (item : PyVal) : Feat :=
  if hasKeyB item "geometry" || hasKeyB item "attributes" then
    { typ := "Feature"
      fid := .none
      geometry := if truthy (pyGet item "geometry") then convertGeom (pyGet item "geometry") else .none
      properties := if truthy (pyGet item "attributes") then pyGet item "attributes" else .none }
  else
    { typ := "", fid := .none, geometry := .none, properties := .dictV [] }

/-- Model of `_apply_geometry_transform` guarded by `if transform_fn and
feature.get('geometry')` — the transform touches only the geometry. -/
def applyTransform (tf : Option (PyVal → PyVal)) (f : Feat) : Feat :=
  match tf with
  | some t => if truthy f.geometry then { f with geometry := t f.geometry } else f
  | Option.none => f

/-- Model of `_custom_convert` (lines 56-66): library conversion, then
`feature['id'] = item.get(id_field) or attrs.get(id_field) or str(uuid4())`
with Python's lazy, truthiness-based `or`; `fresh` stands for the opaque
generated unique token. -/
def custom_convert (idf : String) (item : PyVal) (fresh : String)
    (tf : Option (PyVal → PyVal)) : Except PErr Feat :=
  match pyDictGet item idf with
  | .error e => .error e
  | .ok a =>
    if truthy a then
      .ok (applyTransform tf { convert item with typ := "Feature", fid := a })
    else
      match pyDictGet (convert item).properties idf with
      | .error e => .error e
      | .ok b =>
        .ok (applyTransform tf
          { convert item with typ := "Feature", fid := if truthy b then b else .strV fresh })

/-- Model of `item.get('feature', {}).get('geometry', {})` (line 133). -/
def get_env_geom (item : PyVal) : Except PErr PyVal :=
  match pyDictGetD item "feature" (.dictV []) with
  | .error e => .error e
  | .ok env => pyDictGetD env "geometry" (.dictV [])

/-- Short-circuit `'x' in esri_geom and 'y' in esri_geom` (line 134). -/
def hasXY (g : PyVal) : Except PErr Bool :=
  match pyContains g "x" with
  | .error e => .error e
  | .ok hx => if hx then pyContains g "y" else .ok false

/-- The flat-geometry acceptance test of line 138:
`geometry and isinstance(geometry, dict) and geometry.get('type') and
geometry.get('coordinates')`. -/
def geojsonShaped (g : PyVal) : Bool :=
  truthy g && isDict g && truthy (pyGet g "type") && truthy (pyGet g "coordinates")

/-- Lines 125-129 of `get_item`: `item.get(id_field) or
item.get('feature', {}).get(id_field) or
feature.get('properties', {}).get(id_field)`; the chain's value is the
last lookup when the earlier ones are falsy. -/
def get_item_feature_id (idf : String) (item : PyVal) (feature : Feat) : Except PErr PyVal :=
  match pyDictGet item idf with
  | .error e => .error e
  | .ok a =>
    if truthy a then .ok a
    else
      match pyDictGetD item "feature" (.dictV []) with
      | .error e => .error e
      | .ok env =>
        match pyDictGet env idf with
        | .error e => .error e
        | .ok b =>
          if truthy b then .ok b
          else pyDictGet feature.properties idf

/-- Model of `feature_id if feature_id is not None else str(item_id)` (line 130). -/
def noneOr (v dflt : PyVal) : PyVal :=
  match v with
  | .none => dflt
  | x => x

/-- The geometry fallback of `get_item` (lines 131-143): when the
converted feature has no truthy geometry, synthesize a Point from the
envelope's `x`/`y`, else accept a flat GeoJSON-shaped geometry object
(applying the optional transform), else raise naming the identifier.
The Python message also interpolates the raw response; that tail is
elided. -/
def get_item_geom_phase (item_id : String) (item : PyVal)
    (tf : Option (PyVal → PyVal)) (feature : Feat) : Except PErr Feat :=
  if truthy feature.geometry then .ok feature
  else
    match get_env_geom item with
    | .error e => .error e
    | .ok esri_geom =>
      match hasXY esri_geom with
      | .error e => .error e
      | .ok true =>
        match pyIndexKey esri_geom "x" with
        | .error e => .error e
        | .ok xv =>
          match pyIndexKey esri_geom "y" with
          | .error e => .error e
          | .ok yv =>
            .ok { feature with
                  geometry := .dictV [("type", .strV "Point"), ("coordinates", .listV [xv, yv])] }
      | .ok false =>
        match pyDictGet item "geometry" with
        | .error e => .error e
        | .ok g0 =>
          if geojsonShaped (pyOr g0 esri_geom) then
            .ok (applyTransform tf { feature with geometry := pyOr g0 esri_geom })
          else .error (.providerQueryError ("No valid geometry found for item " ++ item_id))

/-- The single-polygon MultiPolygon collapse of `get_item` (lines
145-147); the Python local `geom = feature.get('geometry')` is inlined. -/
def collapse_phase (feature : Feat) : Except PErr Feat :=
  if truthy feature.geometry then
    match pyDictGet feature.geometry "type" with
    | .error e => .error e
    | .ok (.strV "MultiPolygon") =>
      match pyDictGetD feature.geometry "coordinates" (.listV []) with
      | .error e => .error e
      | .ok cs =>
        match pyLen cs with
        | .error e => .error e
        | .ok n =>
          if n = 1 then
            match pyIndex0 cs with
            | .error e => .error e
            | .ok c0 =>
              .ok { feature with
                    geometry := .dictV [("type", .strV "Polygon"), ("coordinates", c0)] }
          else .ok feature
    | .ok _ => .ok feature
  else .ok feature

/-- The properties assignment of `get_item` (lines 148-150):
`item.get('feature', {}).get('properties') or item.get('properties') or
{}`, coerced to `{}` when not a dict. -/
def props_phase (item : PyVal) (feature : Feat) : Except PErr Feat :=
  match pyDictGetD item "feature" (.dictV []) with
  | .error e => .error e
  | .ok env =>
    match pyDictGet env "properties" with
    | .error e => .error e
    | .ok p1 =>
      match pyDictGet item "properties" with
      | .error e => .error e
      | .ok p0 =>
        .ok { feature with
              properties :=
                if isDict (pyOr p1 (pyOr p0 (.dictV []))) then pyOr p1 (pyOr p0 (.dictV []))
                else .dictV [] }

/-- The tail of `get_item` after the id assignment: geometry fallback,
`feature['type'] = 'Feature'`, MultiPolygon collapse, properties. -/
def get_item_after_id (item_id : String) (item : PyVal)
    (tf : Option (PyVal → PyVal)) (feature : Feat) : Except PErr Feat :=
  match get_item_geom_phase item_id item tf feature with
  | .error e => .error e
  | .ok f2 =>
    match collapse_phase { f2 with typ := "Feature" } with
    | .error e => .error e
    | .ok f3 => props_phase item f3

/-- The body of `get_item`'s `try` block (lines 118-151), with the fetched
response passed in as `item`. -/
def get_item_try (idf item_id fresh : String) (item : PyVal)
    (tf : Option (PyVal → PyVal)) : Except PErr Feat :=
  match custom_convert idf item fresh tf with
  | .error e => .error e
  | .ok feature =>
    match get_item_feature_id idf item feature with
    | .error e => .error e
    | .ok fid0 =>
      get_item_after_id item_id item tf { feature with fid := noneOr fid0 (.strV item_id) }

/-- Model of `get_item` (lines 105-155): collection guard, then the try block; any
exception escaping the body is re-raised as a `ProviderQueryError` whose
message names the requested identifier. -/
def get_item (idf : String) (collection : Option PyVal) (item_id fresh : String)
    (item : PyVal) (tf : Option (PyVal → PyVal)) : Except PErr Feat :=
  if truthyOpt collection then
    match get_item_try idf item_id fresh item tf with
    | .ok f => .ok f
    | .error e =>
      .error (.providerQueryError
        ("Error querying MapServer API for item " ++ item_id ++ (": " ++ errText e)))
  else .error (.providerQueryError "No collection found in config or set manually.")

/-! ## The standalone provider's `_transform_geojson` loop body -/

/-- Coerce a coordinate value to a modelled (integer) number. -/
def pyNum (v : PyVal) : Except PErr Int :=
  match v with
  | .intV n => .ok n
  | .boolV b => .ok (if b then 1 else 0)
  | _ => .error (.typeError "a number is required")

/-- Parse one `[x, y]` coordinate pair as shapely consumes it. -/
def pyToPoint (v : PyVal) : Except PErr Pt :=
  match v with
  | .listV [a, b] =>
    match pyNum a with
    | .error e => .error e
    | .ok x =>
      match pyNum b with
      | .error e => .error e
      | .ok y => .ok (x, y)
  | _ => .error (.valueError "invalid coordinate pair")

/-- Parse the `rings` value into typed rings; a falsy `rings` value maps
to the empty ring list, which normalizes to absent geometry exactly like
the source's `if not rings: return None` guard. -/
def pyToRings (v : PyVal) : Except PErr (List (List Pt)) :=
  match v with
  | .none => .ok []
  | .listV rs =>
    rs.mapM (fun rv =>
      match rv with
      | .listV ps => ps.mapM pyToPoint
      | _ => .error (.valueError "invalid ring"))
  | _ => .error (.typeError "rings must be a list")

/-- The id resolution of `_transform_geojson` (lines 157-161):
`item.get(id_field) or attrs.get(id_field) or item.get('featureId')`. -/
def sa_resolve_id (idf : String) (item attrs : PyVal) : Except PErr PyVal :=
  match pyDictGet item idf with
  | .error e => .error e
  | .ok a =>
    if truthy a then .ok a
    else
      match pyDictGet attrs idf with
      | .error e => .error e
      | .ok b =>
        if truthy b then .ok b
        else pyDictGet item "featureId"

/-- A feature assembled by the standalone `_transform_geojson`. -/
structure SFeat where
  fid : PyVal
  geometry : Geom
  properties : PyVal

/-- The geometry dispatch of `_transform_geojson` (lines 145-155): ring
geometries go through `_esri_rings_to_geojson`, point geometries become a
Point, anything else yields no geometry. -/
def sa_compute_geom (geom : PyVal) : Except PErr (Option Geom) :=
  match pyContains geom "rings" with
  | .error e => .error e
  | .ok true =>
    match pyDictGet geom "rings" with
    | .error e => .error e
    | .ok rv =>
      match pyToRings rv with
      | .error e => .error e
      | .ok rings => .ok (esri_rings_to_geojson rings)
  | .ok false =>
    match hasXY geom with
    | .error e => .error e
    | .ok true =>
      match pyIndexKey geom "x" with
      | .error e => .error e
      | .ok xv =>
        match pyIndexKey geom "y" with
        | .error e => .error e
        | .ok yv =>
          match pyNum xv with
          | .error e => .error e
          | .ok x =>
            match pyNum yv with
            | .error e => .error e
            | .ok y => .ok (some (Geom.point x y))
    | .ok false => .ok Option.none

/-- One iteration of the `_transform_geojson` loop (lines 139-169):
read geometry and attributes, skip items without truthy geometry,
normalize the geometry, resolve the id, and emit a feature whose
properties are the raw attributes — only when a geometry was produced. -/
def sa_transform_item (idf : String) (item : PyVal) : Except PErr (Option SFeat) :=
  match pyDictGet item "geometry" with
  | .error e => .error e
  | .ok geom =>
    match pyDictGetD item "attributes" (.dictV []) with
    | .error e => .error e
    | .ok attrs =>
      if truthy geom then
        match sa_compute_geom geom with
        | .error e => .error e
        | .ok og =>
          match sa_resolve_id idf item attrs with
          | .error e => .error e
          | .ok fid =>
            match og with
            | some g => .ok (some { fid := fid, geometry := g, properties := attrs })
            | Option.none => .ok Option.none
      else .ok Option.none

/-! ## Request construction (`query` in both providers) -/

/-- Python `offset or startindex` as interpolated into both query URLs:
a falsy offset (absent or zero) falls back to the start index. -/
def effectiveOffset (offset : Option Int) (startindex : Int) : Int :=
  match offset with
  | some n => if n = 0 then startindex else n
  | Option.none => startindex

/-- Model of `self.default_epsg or "2056"` — falsy strings fall back. -/
def strOr (o : Option String) (dflt : String) : String :=
  match o with
  | some s => if s = "" then dflt else s
  | Option.none => dflt

/-- Provider state of `arcgis_mapserver.py` relevant to `query`. -/
structure MSState where
  collection : Option PyVal
  extent_bbox : PyVal
  default_epsg : Option String
  data : String
  layer : String
  params : PyVal

/-- Provider state of `arcgis_mapserver_standalone.py` relevant to
`query`. -/
structure SAState where
  collection : Option PyVal
  extent_bbox : PyVal
  default_epsg : Option Int
  data : String
  layer : String
  params : PyVal

/-- Request construction of `query` in `arcgis_mapserver.py` (lines
68-86): collection guard, bbox shape validation raising a
`ProviderQueryError`, float conversion of the bbox values (a bare
`ValueError`/`TypeError` on non-numeric entries, re-raised by nothing —
it happens before the `try`), then the identify URL. Success returns the
URL that would be fetched; every failure precedes any HTTP request. -/
def ms_query_url (S : MSState) (startindex limit : Int) (offset : Option Int) :
    Except PErr String :=
  if truthyOpt S.collection then
    match S.extent_bbox with
    | .listV xs =>
      if xs.length = 4 then
        match xs.mapM pyFloat with
        | .error e => .error e
        | .ok nums =>
          let sr := strOr S.default_epsg "2056"
          let geometry := String.intercalate "," (nums.map toString)
          let tolerance := pyStr (pyGetD S.params "tolerance" (.intV 0))
          .ok (S.data ++ "/identify?geometryType=esriGeometryEnvelope&sr=" ++ sr ++
               "&geometry=" ++ geometry ++ "&tolerance=" ++ tolerance ++
               "&layers=all:" ++ S.layer ++ "&f=json&offset=" ++
               toString (effectiveOffset offset startindex) ++ "&limit=" ++ toString limit)
      else .error (.providerQueryError "Invalid or missing bbox in collection extents.spatial.bbox")
    | _ => .error (.providerQueryError "Invalid or missing bbox in collection extents.spatial.bbox")
  else .error (.providerQueryError "No collection found in config or set manually.")

/-- Model of `self.default_epsg if self.default_epsg else 4326` (standalone
`query`, line 80). -/
def sa_sr (e : Option Int) : Int :=
  match e with
  | some n => if n = 0 then 4326 else n
  | Option.none => 4326

/-- Request construction of `query` in the standalone provider (lines
67-96): same guards (`not bbox or not isinstance(...) or len(bbox) != 4`),
the float conversion also precedes the `try`, and the URL differs (no
`/identify` path segment, `f=geojson`, different parameter order). -/
def sa_query_url (S : SAState) (startindex limit : Int) (offset : Option Int) :
    Except PErr String :=
  if truthyOpt S.collection then
    if truthy S.extent_bbox then
      match S.extent_bbox with
      | .listV xs =>
        if xs.length = 4 then
          match xs.mapM pyFloat with
          | .error e => .error e
          | .ok nums =>
            let sr := sa_sr S.default_epsg
            let geometry := String.intercalate "," (nums.map toString)
            let tolerance := pyStr (pyGetD S.params "tolerance" (.intV 0))
            .ok (S.data ++ "?geometryType=esriGeometryEnvelope&sr=" ++ toString sr ++
                 "&geometry=" ++ geometry ++ "&tolerance=" ++ tolerance ++
                 "&layers=all:" ++ S.layer ++ "&f=geojson&limit=" ++ toString limit ++
                 "&offset=" ++ toString (effectiveOffset offset startindex))
        else .error (.providerQueryError "Invalid or missing bbox in collection extents.spatial.bbox")
      | _ => .error (.providerQueryError "Invalid or missing bbox in collection extents.spatial.bbox")
    else .error (.providerQueryError "Invalid or missing bbox in collection extents.spatial.bbox")
  else .error (.providerQueryError "No collection found in config or set manually.")

/-- Whether a bbox value is a list of exactly 4 entries. -/
def isBbox4 (v : PyVal) : Bool :=
  match v with
  | .listV xs => xs.length == 4
  | _ => false

/-- Whether a result failed with the provider's query-failure kind. -/
def isProviderQueryError {α : Type} : Except PErr α → Bool
  | .error (.providerQueryError _) => true
  | _ => false

/-! ## CRS code derivation (`_load_collection_from_config`) -/

/-- The maximal trailing run of ASCII digits of a string. -/
def trailingDigits (s : String) : String :=
  String.mk (((s.data.reverse).takeWhile Char.isDigit).reverse)

/-- Model of `re.search(r'(\d{4,5})$', s)`: the regex matches exactly when
the trailing digit run has length at least 4, and the leftmost-longest
match is the last `min 5 runLength` digits. -/
def reSearchD45 (s : String) : Option String :=
  if 4 ≤ (trailingDigits s).length then
    some (String.mk ((trailingDigits s).data.drop ((trailingDigits s).length - 5)))
  else Option.none

/-- CRS-code derivation of `arcgis_mapserver.py` (line 42): the regex
match when the CRS string is truthy and matches, the string `'4326'`
otherwise. -/
def ms_default_epsg (extent_crs : Option String) : String :=
  match extent_crs with
  | some s =>
    if s = "" then "4326"
    else
      match reSearchD45 s with
      | some d => d
      | Option.none => "4326"
  | Option.none => "4326"

/-- CRS-code derivation of the standalone provider (lines 53-59): a truthy
CRS string sets the code only when the regex matches (otherwise the field
stays unset), and a falsy/absent CRS string sets 4326. -/
def sa_default_epsg (extent_crs : Option String) : Option Int :=
  match extent_crs with
  | some s =>
    if s = "" then some 4326
    else
      match reSearchD45 s with
      | some d => some (((parseDigits d.data).getD 0 : Nat) : Int)
      | Option.none => Option.none
  | Option.none => some 4326

/-! ## Signed-area lemmas -/

theorem cross_self (p : Pt) : cross p p = 0 := by
  simp [cross]

theorem pathSum_concat (l : List Pt) (a b : Pt) :
    pathSum a (l ++ [b]) = pathSum a l + cross (l.getLastD a) b := by
  induction l generalizing a with
  | nil => simp [pathSum]
  | cons q rest ih =>
    simp only [List.cons_append, pathSum, ih q, List.getLastD_cons, List.append_eq]
    ring

theorem pathSum_rev (l : List Pt) (a b : Pt) :
    pathSum b (l.reverse ++ [a]) = - pathSum a (l ++ [b]) := by
  induction l generalizing a with
  | nil =>
    simp only [List.reverse_nil, List.nil_append, pathSum, cross]
    ring
  | cons q rest ih =>
    have h1 : (q :: rest).reverse ++ [a] = (rest.reverse ++ [q]) ++ [a] := by simp
    rw [h1, pathSum_concat, List.getLastD_concat, ih q]
    simp only [List.cons_append, pathSum, cross, List.append_eq]
    ring

theorem signedArea2_reverse (r : List Pt) : signedArea2 r.reverse = - signedArea2 r := by
  match r with
  | [] => simp [signedArea2]
  | [p] => simp [signedArea2, pathSum, cross]
  | p :: q :: rest =>
    obtain ⟨h, t, ht⟩ : ∃ h t, (q :: rest).reverse = h :: t := by
      cases hrev : (q :: rest).reverse with
      | nil => exact absurd hrev (by simp)
      | cons x xs => exact ⟨x, xs, rfl⟩
    have hrev : (p :: q :: rest).reverse = h :: (t ++ [p]) := by
      simp [List.reverse_cons, ht]
    have hps : q :: rest = t.reverse ++ [h] := by
      have h2 := congrArg List.reverse ht
      simpa using h2
    rw [hrev]
    show pathSum h ((t ++ [p]) ++ [h]) = - signedArea2 (p :: q :: rest)
    rw [pathSum_concat, List.getLastD_concat]
    show _ = - pathSum p ((q :: rest) ++ [p])
    rw [hps]
    have h3 : (t.reverse ++ [h]) ++ [p] = (h :: t).reverse ++ [p] := by simp
    rw [h3, pathSum_rev (h :: t) p p]
    simp only [List.cons_append, pathSum, cross, List.append_eq]
    ring

theorem signedArea2_closeRing (r : List Pt) : signedArea2 (closeRing r) = signedArea2 r := by
  cases r with
  | nil => rfl
  | cons p ps =>
    show signedArea2 (if (p :: ps).getLast? = some p then p :: ps else (p :: ps) ++ [p])
      = signedArea2 (p :: ps)
    split
    · rfl
    · show pathSum p ((ps ++ [p]) ++ [p]) = pathSum p (ps ++ [p])
      rw [pathSum_concat, List.getLastD_concat, cross_self, add_zero]

theorem polyKept_area {r : List Pt} (h : polyKept r = true) : signedArea2 r ≠ 0 := by
  unfold polyKept polyIsValid polyIsEmpty at h
  cases hr : r.isEmpty with
  | true => simp [hr] at h
  | false =>
    rw [hr] at h
    simp only [Bool.false_or, Bool.and_eq_true, bne_iff_ne, Bool.not_false,
      Bool.and_true] at h
    exact h.2

theorem orient_pos {r : List Pt} (h : signedArea2 r ≠ 0) :
    0 < signedArea2 (orientRing r) := by
  unfold orientRing
  split
  · rename_i hle
    exact lt_of_le_of_ne hle (Ne.symm h)
  · rename_i hlt
    rw [signedArea2_reverse]
    have h2 := lt_of_not_ge hlt
    linarith

theorem orient_eq_of_pos {r : List Pt} (h : 0 < signedArea2 r) : orientRing r = r := by
  unfold orientRing
  rw [if_pos (le_of_lt h)]

theorem filterMap_head_singletons (L : List (List Pt)) :
    (L.map (fun x => [orientRing x])).filterMap List.head? = L.map orientRing := by
  induction L with
  | nil => rfl
  | cons a l ih => simp [ih, List.filterMap_cons]

/-! ## Preservation lemmas for the `get_item` phases -/

theorem applyTransform_preserves (tf : Option (PyVal → PyVal)) (f : Feat) :
    (applyTransform tf f).fid = f.fid ∧ (applyTransform tf f).properties = f.properties ∧
      (applyTransform tf f).typ = f.typ := by
  cases tf with
  | none => exact ⟨rfl, rfl, rfl⟩
  | some t =>
    refine ⟨?_, ?_, ?_⟩ <;> simp only [applyTransform] <;> split <;> rfl

theorem props_phase_preserves {item : PyVal} {f g : Feat} (h : props_phase item f = .ok g) :
    g.fid = f.fid ∧ g.geometry = f.geometry ∧ g.typ = f.typ := by
  unfold props_phase at h
  cases hA : pyDictGetD item "feature" (.dictV []) with
  | error e => simp [hA] at h
  | ok env =>
    simp only [hA] at h
    cases hB : pyDictGet env "properties" with
    | error e => simp [hB] at h
    | ok p1 =>
      simp only [hB] at h
      cases hC : pyDictGet item "properties" with
      | error e => simp [hC] at h
      | ok p0 =>
        simp only [hC, Except.ok.injEq] at h
        subst h
        exact ⟨rfl, rfl, rfl⟩

theorem collapse_phase_preserves {f g : Feat} (h : collapse_phase f = .ok g) :
    g.fid = f.fid ∧ g.properties = f.properties ∧ g.typ = f.typ := by
  unfold collapse_phase at h
  split at h
  · split at h
    · simp at h
    · cases hB : pyDictGetD f.geometry "coordinates" (.listV []) with
      | error e => simp [hB] at h
      | ok cs =>
        simp only [hB] at h
        cases hC : pyLen cs with
        | error e => simp [hC] at h
        | ok n =>
          simp only [hC] at h
          split at h
          · cases hD : pyIndex0 cs with
            | error e => simp [hD] at h
            | ok c0 =>
              simp only [hD, Except.ok.injEq] at h
              subst h
              exact ⟨rfl, rfl, rfl⟩
          · simp only [Except.ok.injEq] at h
            subst h
            exact ⟨rfl, rfl, rfl⟩
    · simp only [Except.ok.injEq] at h
      subst h
      exact ⟨rfl, rfl, rfl⟩
  · simp only [Except.ok.injEq] at h
    subst h
    exact ⟨rfl, rfl, rfl⟩

theorem geom_phase_preserves {item_id : String} {item : PyVal}
    {tf : Option (PyVal → PyVal)} {f g : Feat}
    (h : get_item_geom_phase item_id item tf f = .ok g) :
    g.fid = f.fid ∧ g.properties = f.properties ∧ g.typ = f.typ := by
  unfold get_item_geom_phase at h
  split at h
  · simp only [Except.ok.injEq] at h
    subst h
    exact ⟨rfl, rfl, rfl⟩
  · cases hA : get_env_geom item with
    | error e => simp [hA] at h
    | ok esri_geom =>
      simp only [hA] at h
      cases hB : hasXY esri_geom with
      | error e => simp [hB] at h
      | ok hx =>
        simp only [hB] at h
        cases hx with
        | true =>
          cases hC : pyIndexKey esri_geom "x" with
          | error e => simp [hC] at h
          | ok xv =>
            simp only [hC] at h
            cases hD : pyIndexKey esri_geom "y" with
            | error e => simp [hD] at h
            | ok yv =>
              simp only [hD, Except.ok.injEq] at h
              subst h
              exact ⟨rfl, rfl, rfl⟩
        | false =>
          cases hC : pyDictGet item "geometry" with
          | error e => simp [hC] at h
          | ok g0 =>
            simp only [hC] at h
            split at h
            · simp only [Except.ok.injEq] at h
              subst h
              exact applyTransform_preserves tf _
            · simp at h

theorem after_id_preserves {item_id : String} {item : PyVal}
    {tf : Option (PyVal → PyVal)} {f g : Feat}
    (h : get_item_after_id item_id item tf f = .ok g) : g.fid = f.fid := by
  unfold get_item_after_id at h
  cases hA : get_item_geom_phase item_id item tf f with
  | error e => simp [hA] at h
  | ok f2 =>
    simp only [hA] at h
    cases hB : collapse_phase { f2 with typ := "Feature" } with
    | error e => simp [hB] at h
    | ok f3 =>
      simp only [hB] at h
      have h1 := (geom_phase_preserves hA).1
      have h2 := (collapse_phase_preserves hB).1
      have h3 := (props_phase_preserves h).1
      rw [h3, h2, h1]

/-! ## Claims C1, C2, C3 -/

/-- Claim C1: for every ring-based ESRI geometry whose ring set yields at
least one valid ring (normalization returns a geometry), every exterior
ring of the produced geometry has positive signed area, i.e. is oriented
counter-clockwise, regardless of the winding of the input rings. -/
theorem C1_exterior_rings_ccw (rings : List (List Pt)) (g : Geom)
    (hg : esri_rings_to_geojson rings = some g) :
    ∀ r ∈ exteriors g, 0 < signedArea2 r := by
  intro r hr
  unfold esri_rings_to_geojson at hg
  by_cases hempty : rings.isEmpty
  · simp [hempty] at hg
  · rw [if_neg hempty] at hg
    set M := (rings.filter polyKept).map (fun r0 => orientRing (closeRing r0)) with hM
    have hMpos : ∀ m ∈ M, 0 < signedArea2 m := by
      intro m hm
      rw [hM] at hm
      obtain ⟨r0, hr0, rfl⟩ := List.mem_map.mp hm
      have hk : polyKept r0 = true := (List.mem_filter.mp hr0).2
      have hnz : signedArea2 (closeRing r0) ≠ 0 := by
        rw [signedArea2_closeRing]
        exact polyKept_area hk
      exact orient_pos hnz
    rcases hMc : M with _ | ⟨p, _ | ⟨q, rest⟩⟩
    · rw [hMc] at hg
      simp at hg
    · rw [hMc] at hg
      simp only [Option.some.injEq] at hg
      subst hg
      simp only [exteriors, List.take, List.mem_singleton] at hr
      subst hr
      exact hMpos r (by rw [hMc]; exact List.mem_singleton.mpr rfl)
    · rw [hMc] at hg
      simp only [Option.some.injEq] at hg
      subst hg
      simp only [exteriors, filterMap_head_singletons] at hr
      obtain ⟨m, hm, rfl⟩ := List.mem_map.mp hr
      have hmM : m ∈ M := by rw [hMc]; exact hm
      have hp := hMpos m hmM
      rw [orient_eq_of_pos hp]
      exact hp

/-- Claim C2: when exactly one valid ring survives the filter, the
standalone normalizer returns a `Polygon`, never a `MultiPolygon`; and on
the single-item fetch path, a feature geometry that is a `MultiPolygon`
with exactly one polygon is collapsed to a `Polygon` before the feature is
returned. -/
theorem C2_single_polygon_collapse :
    (∀ rings : List (List Pt), (rings.filter polyKept).length = 1 →
      ∃ p, esri_rings_to_geojson rings = some (Geom.polygon [p])) ∧
    (∀ (item_id : String) (item : PyVal) (tf : Option (PyVal → PyVal))
        (f : Feat) (x : PyVal) (g : Feat),
      truthy f.geometry = true →
      pyDictGet f.geometry "type" = .ok (.strV "MultiPolygon") →
      pyDictGetD f.geometry "coordinates" (.listV []) = .ok (.listV [x]) →
      get_item_after_id item_id item tf f = .ok g →
      g.geometry = .dictV [("type", .strV "Polygon"), ("coordinates", x)]) := by
  constructor
  · intro rings hlen
    have hne : rings.isEmpty = false := by
      cases rings with
      | nil => simp at hlen
      | cons a l => rfl
    unfold esri_rings_to_geojson
    rw [if_neg (by simp [hne])]
    rcases List.length_eq_one.mp hlen with ⟨r0, hr0⟩
    rw [hr0]
    exact ⟨orientRing (closeRing r0), rfl⟩
  · intro item_id item tf f x g htru hty hco hrest
    unfold get_item_after_id at hrest
    have hgeo : get_item_geom_phase item_id item tf f = .ok f := by
      unfold get_item_geom_phase
      rw [if_pos htru]
    simp only [hgeo] at hrest
    have hcol : collapse_phase { f with typ := "Feature" }
        = .ok { f with
                typ := "Feature"
                geometry := .dictV [("type", .strV "Polygon"), ("coordinates", x)] } := by
      unfold collapse_phase
      dsimp only
      rw [if_pos htru, hty, hco]
      rfl
    simp only [hcol] at hrest
    have hp := props_phase_preserves hrest
    rw [hp.2.1]

/-- Claim C3: a ring set in which no ring survives the validity/emptiness
filter normalizes to absent geometry, never to an empty shape. -/
theorem C3_no_valid_rings_absent (rings : List (List Pt))
    (h : ∀ r ∈ rings, polyKept r = false) :
    esri_rings_to_geojson rings = Option.none := by
  have hf : rings.filter polyKept = [] := by
    rw [List.filter_eq_nil_iff]
    intro a ha
    simp [h a ha]
  unfold esri_rings_to_geojson
  by_cases he : rings.isEmpty
  · rw [if_pos he]
  · rw [if_neg he, hf]
    rfl

/-- Witness for C1: a clockwise square ring is flipped by normalization
and the output exterior ring has positive signed area. -/
theorem C1_exterior_rings_ccw_witness :
    (0:Int) < signedArea2 [((0:Int),(0:Int)),(1,0),(1,1),(0,1),(0,0)] :=
  C1_exterior_rings_ccw [[((0:Int),(0:Int)),(0,1),(1,1),(1,0)]]
    (Geom.polygon [[((0:Int),(0:Int)),(1,0),(1,1),(0,1),(0,0)]]) (by rfl)
    [((0:Int),(0:Int)),(1,0),(1,1),(0,1),(0,0)] (by decide)

/-- Witness for C2: a one-ring ring set produces some geometry (a Polygon),
and a concrete single-polygon MultiPolygon feature comes out of the
single-item tail with Polygon geometry. -/
theorem C2_single_polygon_collapse_witness :
    (esri_rings_to_geojson [[((0:Int),(0:Int)),(0,1),(1,1),(1,0)]]).isSome = true ∧
    (⟨"Feature", .intV 1,
      .dictV [("type", .strV "Polygon"), ("coordinates", .listV [.intV 5])],
      .dictV []⟩ : Feat).geometry
      = .dictV [("type", .strV "Polygon"), ("coordinates", .listV [.intV 5])] := by
  constructor
  · obtain ⟨p, hp⟩ := C2_single_polygon_collapse.1 [[((0:Int),(0:Int)),(0,1),(1,1),(1,0)]]
      (by decide)
    rw [hp]
    rfl
  · exact C2_single_polygon_collapse.2 "7" (.dictV []) Option.none
      ⟨"x", .intV 1,
        .dictV [("type", .strV "MultiPolygon"), ("coordinates", .listV [.listV [.intV 5]])],
        .dictV []⟩
      (.listV [.intV 5])
      ⟨"Feature", .intV 1,
        .dictV [("type", .strV "Polygon"), ("coordinates", .listV [.intV 5])],
        .dictV []⟩
      (by rfl) (by rfl) (by rfl) (by rfl)

/-- Witness for C3: an empty ring, a zero-area collinear ring, and a
self-intersecting bowtie ring all get dropped and no geometry results. -/
theorem C3_no_valid_rings_absent_witness :
    esri_rings_to_geojson
      [([] : List Pt), [((0:Int),(0:Int)),(1,1),(2,2)], [((0:Int),(0:Int)),(4,4),(4,0),(0,2)]]
      = Option.none :=
  C3_no_valid_rings_absent _ (by decide)

/-! ## Claim C4: identifier resolution precedence -/

/-- Counterexample to C4 as stated: an item whose top-level id value is
`0` (set, but falsy) does not yield that value — the truthiness-based `or`
chain falls through to the attributes value `7`. -/
theorem C4_cex_top_level_falsy_id :
    custom_convert "OBJECTID"
      (.dictV [("OBJECTID", .intV 0), ("attributes", .dictV [("OBJECTID", .intV 7)])])
      "tok" Option.none
      = .ok ⟨"Feature", .intV 7, .none, .dictV [("OBJECTID", .intV 7)]⟩ ∧
    PyVal.intV 7 ≠ PyVal.intV 0 :=
  ⟨rfl, by simp⟩

/-- Claim C4 (amended): identifier precedence is decided by Python
truthiness, not mere presence — an item whose top-level `idField` value is
truthy yields exactly that value, in both providers, even when the
attributes mapping holds a different value under the same key; falsy
top-level values fall through to the attributes value and then to the
generated token (library provider) or `featureId` (standalone). -/
theorem C4_id_precedence_truthy (idf : String) (item v : PyVal) (fresh : String)
    (tf : Option (PyVal → PyVal)) (attrs : PyVal)
    (hv : pyDictGet item idf = .ok v) (ht : truthy v = true) :
    (∃ f, custom_convert idf item fresh tf = .ok f ∧ f.fid = v) ∧
    sa_resolve_id idf item attrs = .ok v := by
  constructor
  · refine ⟨applyTransform tf { convert item with typ := "Feature", fid := v }, ?_, ?_⟩
    · unfold custom_convert
      simp only [hv]
      rw [if_pos ht]
    · rw [(applyTransform_preserves tf _).1]
  · unfold sa_resolve_id
    simp only [hv]
    rw [if_pos ht]

/-- Witness for the amended C4: a truthy top-level id `3` wins over
attributes id `9` in both providers. -/
theorem C4_id_precedence_truthy_witness :
    Except.map Feat.fid
      (custom_convert "OBJECTID"
        (.dictV [("OBJECTID", .intV 3), ("attributes", .dictV [("OBJECTID", .intV 9)])])
        "tok" Option.none) = .ok (.intV 3) ∧
    sa_resolve_id "OBJECTID"
      (.dictV [("OBJECTID", .intV 3), ("attributes", .dictV [("OBJECTID", .intV 9)])])
      (.dictV [("OBJECTID", .intV 9)]) = .ok (.intV 3) := by
  have h := C4_id_precedence_truthy "OBJECTID"
    (.dictV [("OBJECTID", .intV 3), ("attributes", .dictV [("OBJECTID", .intV 9)])])
    (.intV 3) "tok" Option.none (.dictV [("OBJECTID", .intV 9)]) (by rfl) (by rfl)
  constructor
  · obtain ⟨f, hf, hfid⟩ := h.1
    rw [hf]
    simp only [Except.map]
    rw [hfid]
  · exact h.2

/-! ## Claim C5: offset precedence in query pagination -/

/-- Counterexample to C5 as stated: with `offset=0` supplied and
`startIndex=5`, the value placed in the URL's offset parameter is `5`,
not the supplied `0` — Python's `offset or startindex` treats `0` as
falsy. -/
theorem C5_cex_offset_zero :
    effectiveOffset (some 0) 5 = 5 ∧ effectiveOffset (some 0) 5 ≠ 0 ∧
    ms_query_url
      ⟨some (.dictV [("x", .intV 1)]), .listV [.intV 1, .intV 2, .intV 3, .intV 4],
        some "2056", "http://h/MapServer", "3", .dictV []⟩ 5 10 (some 0)
      = .ok ("http://h/MapServer/identify?geometryType=esriGeometryEnvelope&sr=2056" ++
             "&geometry=1,2,3,4&tolerance=0&layers=all:3&f=json&offset=5&limit=10") :=
  ⟨rfl, by decide, by rfl⟩

/-- Claim C5 (amended): the offset parameter takes precedence over the
start index exactly when it is present and nonzero; an absent offset and
an offset equal to 0 both fall back to the start index (the same
`offset or startindex` expression feeds both providers' URLs). -/
theorem C5_offset_precedence (off si : Int) :
    (off ≠ 0 → effectiveOffset (some off) si = off) ∧
    effectiveOffset Option.none si = si ∧
    effectiveOffset (some 0) si = si := by
  refine ⟨?_, rfl, ?_⟩
  · intro h
    simp [effectiveOffset, h]
  · simp [effectiveOffset]

/-- Witness for the amended C5: a nonzero offset wins. -/
theorem C5_offset_precedence_witness : effectiveOffset (some 7) 5 = 7 :=
  (C5_offset_precedence 7 5).1 (by decide)

/-! ## Claim C6: bbox validation before any request -/

/-- Counterexample to C6 as stated: a length-4 bbox containing a
non-numeric entry does fail before any request, but with the bare
`ValueError` of `float(x)` — not with the provider's configuration
error kind. -/
theorem C6_cex_nonnumeric_bbox :
    ms_query_url
      ⟨some (.dictV [("x", .intV 1)]),
        .listV [.strV "a", .strV "b", .strV "c", .strV "d"],
        some "2056", "http://h", "3", .dictV []⟩ 0 10 Option.none
      = .error (.valueError "could not convert string to float: a") ∧
    isProviderQueryError
      (ms_query_url
        ⟨some (.dictV [("x", .intV 1)]),
          .listV [.strV "a", .strV "b", .strV "c", .strV "d"],
          some "2056", "http://h", "3", .dictV []⟩ 0 10 Option.none) = false :=
  ⟨rfl, rfl⟩

/-- Claim C6 (amended): in both providers, a resolved bbox that is not a
list of exactly 4 entries fails with the configuration
`ProviderQueryError` before any URL is produced; a 4-entry bbox whose
float conversion fails propagates that conversion error, likewise before
any URL is produced; no defaults are ever substituted. -/
theorem C6_bbox_validation (S : MSState) (T : SAState) (si lim : Int) (off : Option Int)
    (hS : truthyOpt S.collection = true) (hT : truthyOpt T.collection = true) :
    (isBbox4 S.extent_bbox = false →
      ms_query_url S si lim off
        = .error (.providerQueryError "Invalid or missing bbox in collection extents.spatial.bbox")) ∧
    (∀ xs e, S.extent_bbox = .listV xs → xs.length = 4 → xs.mapM pyFloat = .error e →
      ms_query_url S si lim off = .error e) ∧
    (isBbox4 T.extent_bbox = false →
      sa_query_url T si lim off
        = .error (.providerQueryError "Invalid or missing bbox in collection extents.spatial.bbox")) ∧
    (∀ xs e, T.extent_bbox = .listV xs → xs.length = 4 → xs.mapM pyFloat = .error e →
      sa_query_url T si lim off = .error e) := by
  refine ⟨?_, ?_, ?_, ?_⟩
  · intro hb
    unfold ms_query_url
    rw [if_pos hS]
    cases hbb : S.extent_bbox with
    | listV xs =>
      rw [hbb] at hb
      simp only [isBbox4, beq_eq_false_iff_ne, ne_eq] at hb
      dsimp only
      rw [if_neg hb]
    | none => rfl
    | boolV b => rfl
    | intV n => rfl
    | strV s => rfl
    | dictV kvs => rfl
  · intro xs e hbb hlen hmap
    unfold ms_query_url
    rw [if_pos hS, hbb]
    dsimp only
    rw [if_pos hlen]
    simp only [hmap]
  · intro hb
    unfold sa_query_url
    rw [if_pos hT]
    cases hbb : T.extent_bbox with
    | listV xs =>
      rw [hbb] at hb
      simp only [isBbox4, beq_eq_false_iff_ne, ne_eq] at hb
      split
      · dsimp only
        rw [if_neg hb]
      · rfl
    | none => rfl
    | boolV b => split <;> rfl
    | intV n => split <;> rfl
    | strV s => split <;> rfl
    | dictV kvs => split <;> rfl
  · intro xs e hbb hlen hmap
    unfold sa_query_url
    rw [if_pos hT, hbb]
    have htr : truthy (PyVal.listV xs) = true := by
      cases xs with
      | nil => simp at hlen
      | cons a l => rfl
    rw [if_pos htr]
    dsimp only
    rw [if_pos hlen]
    simp only [hmap]

/-- Witness for the amended C6: a non-list bbox raises the configuration
error, and a 4-entry bbox with a non-numeric entry raises the conversion
error, in the library provider (standalone case analogous). -/
theorem C6_bbox_validation_witness :
    ms_query_url
      ⟨some (.dictV [("x", .intV 1)]), .strV "oops", some "2056", "http://h", "3", .dictV []⟩
      0 10 Option.none
      = .error (.providerQueryError "Invalid or missing bbox in collection extents.spatial.bbox") ∧
    ms_query_url
      ⟨some (.dictV [("x", .intV 1)]),
        .listV [.intV 1, .intV 2, .intV 3, .strV "x"],
        some "2056", "http://h", "3", .dictV []⟩ 0 10 Option.none
      = .error (.valueError "could not convert string to float: x") := by
  constructor
  · exact (C6_bbox_validation
      ⟨some (.dictV [("x", .intV 1)]), .strV "oops", some "2056", "http://h", "3", .dictV []⟩
      ⟨some (.dictV [("x", .intV 1)]), .listV [], Option.none, "h", "3", .dictV []⟩
      0 10 Option.none rfl rfl).1 rfl
  · exact (C6_bbox_validation
      ⟨some (.dictV [("x", .intV 1)]),
        .listV [.intV 1, .intV 2, .intV 3, .strV "x"],
        some "2056", "http://h", "3", .dictV []⟩
      ⟨some (.dictV [("x", .intV 1)]), .listV [], Option.none, "h", "3", .dictV []⟩
      0 10 Option.none rfl rfl).2.1
      [.intV 1, .intV 2, .intV 3, .strV "x"]
      (.valueError "could not convert string to float: x") rfl (by decide) (by rfl)

/-! ## Claim C7: single-item fetch with no interpretable geometry -/

/-- Claim C7: when the converted feature has no truthy geometry, the
envelope's nested geometry exposes no `x`/`y`, and neither the flat
`geometry` value nor the envelope geometry passes the GeoJSON shape test,
the single-item fetch fails with a `ProviderQueryError` whose message
names the requested identifier (twice: once from the inner raise, once
from the wrapping handler). -/
theorem C7_get_item_no_geometry_error
    (idf item_id fresh : String) (collection : Option PyVal) (item : PyVal)
    (tf : Option (PyVal → PyVal)) (f : Feat) (eg g0 v : PyVal)
    (hcoll : truthyOpt collection = true)
    (hconv : custom_convert idf item fresh tf = .ok f)
    (hid : get_item_feature_id idf item f = .ok v)
    (hgeom : truthy f.geometry = false)
    (henv : get_env_geom item = .ok eg)
    (hxy : hasXY eg = .ok false)
    (hg0 : pyDictGet item "geometry" = .ok g0)
    (hshape : geojsonShaped (pyOr g0 eg) = false) :
    get_item idf collection item_id fresh item tf
      = .error (.providerQueryError
          ("Error querying MapServer API for item " ++ item_id ++
           (": " ++ ("No valid geometry found for item " ++ item_id)))) := by
  have hphase : get_item_geom_phase item_id item tf { f with fid := noneOr v (.strV item_id) }
      = .error (.providerQueryError ("No valid geometry found for item " ++ item_id)) := by
    unfold get_item_geom_phase
    rw [if_neg (by simp [hgeom])]
    simp only [henv, hxy, hg0]
    rw [if_neg (by simp [hshape])]
  have htry : get_item_try idf item_id fresh item tf
      = .error (.providerQueryError ("No valid geometry found for item " ++ item_id)) := by
    unfold get_item_try
    simp only [hconv, hid]
    unfold get_item_after_id
    simp only [hphase]
  unfold get_item
  rw [if_pos hcoll]
  simp only [htry]
  rfl

/-- Witness for C7: an item carrying only attributes (no geometry
anywhere) makes the fetch fail with the wrapped error naming the id. -/
theorem C7_get_item_no_geometry_error_witness :
    get_item "OBJECTID" (some (.dictV [("t", .intV 1)])) "id9" "tok"
      (.dictV [("attributes", .dictV [("OBJECTID", .intV 3)])]) Option.none
      = .error (.providerQueryError
          ("Error querying MapServer API for item " ++ "id9" ++
           (": " ++ ("No valid geometry found for item " ++ "id9")))) :=
  C7_get_item_no_geometry_error "OBJECTID" "id9" "tok" (some (.dictV [("t", .intV 1)]))
    (.dictV [("attributes", .dictV [("OBJECTID", .intV 3)])]) Option.none
    ⟨"Feature", .intV 3, .none, .dictV [("OBJECTID", .intV 3)]⟩
    (.dictV []) .none (.intV 3)
    (by rfl) (by rfl) (by rfl) (by rfl) (by rfl) (by rfl) (by rfl) (by rfl)

/-! ## Claim C10: single-item id falls back to the requested identifier -/

/-- Claim C10: a successful single-item fetch never has an absent id, and
when the idField value is found at none of the three lookup places (the
chain resolves to `None`), the feature id is the string form of the
requested identifier. -/
theorem C10_get_item_id_fallback
    (idf item_id fresh : String) (collection : Option PyVal) (item : PyVal)
    (tf : Option (PyVal → PyVal)) (out : Feat)
    (hok : get_item idf collection item_id fresh item tf = .ok out) :
    out.fid ≠ PyVal.none ∧
    (∀ f, custom_convert idf item fresh tf = .ok f →
      get_item_feature_id idf item f = .ok PyVal.none →
      out.fid = .strV item_id) := by
  unfold get_item at hok
  by_cases hc : truthyOpt collection = true
  · rw [if_pos hc] at hok
    cases htry : get_item_try idf item_id fresh item tf with
    | error e => rw [htry] at hok; simp at hok
    | ok f1 =>
      rw [htry] at hok
      simp only [Except.ok.injEq] at hok
      subst hok
      unfold get_item_try at htry
      cases hcv : custom_convert idf item fresh tf with
      | error e => simp [hcv] at htry
      | ok f0 =>
        simp only [hcv] at htry
        cases hfi : get_item_feature_id idf item f0 with
        | error e => simp [hfi] at htry
        | ok fid0 =>
          simp only [hfi] at htry
          have hpres := after_id_preserves htry
          constructor
          · rw [hpres]
            cases fid0 <;> exact fun h => PyVal.noConfusion h
          · intro f hf hfid
            injection hf with hf
            subst hf
            rw [hfi] at hfid
            injection hfid with hfid
            rw [hpres, hfid]
            rfl
  · rw [if_neg hc] at hok
    simp at hok

/-- Witness for C10: an item with no id value anywhere yields the
requested identifier as the feature id. -/
theorem C10_get_item_id_fallback_witness :
    get_item "OBJECTID" (some (.dictV [("c", .intV 1)])) "42" "tok"
      (.dictV [("attributes", .dictV [("a", .intV 1)]),
               ("geometry", .dictV [("x", .intV 7), ("y", .intV 8)])]) Option.none
      = .ok ⟨"Feature", .strV "42",
             .dictV [("type", .strV "Point"), ("coordinates", .listV [.intV 7, .intV 8])],
             .dictV []⟩ ∧
    (⟨"Feature", .strV "42",
      .dictV [("type", .strV "Point"), ("coordinates", .listV [.intV 7, .intV 8])],
      .dictV []⟩ : Feat).fid = .strV "42" := by
  refine ⟨by rfl, ?_⟩
  exact (C10_get_item_id_fallback "OBJECTID" "42" "tok" (some (.dictV [("c", .intV 1)]))
      (.dictV [("attributes", .dictV [("a", .intV 1)]),
               ("geometry", .dictV [("x", .intV 7), ("y", .intV 8)])]) Option.none
      ⟨"Feature", .strV "42",
        .dictV [("type", .strV "Point"), ("coordinates", .listV [.intV 7, .intV 8])],
        .dictV []⟩ (by rfl)).2
    ⟨"Feature", .strV "tok",
      .dictV [("type", .strV "Point"), ("coordinates", .listV [.intV 7, .intV 8])],
      .dictV [("a", .intV 1)]⟩ (by rfl) (by rfl)

/-! ## Claim C8: feature properties -/

theorem lookup_imp_any {kvs : List (String × PyVal)} {k : String} {x : PyVal}
    (h : kvs.lookup k = some x) : kvs.any (fun kv => kv.1 == k) = true := by
  induction kvs with
  | nil => simp [List.lookup] at h
  | cons kv rest ih =>
    obtain ⟨k1, v1⟩ := kv
    rw [List.lookup] at h
    cases hk : (k == k1) with
    | true =>
      simp only [List.any_cons, Bool.or_eq_true]
      exact Or.inl (by simpa [beq_iff_eq] using (beq_iff_eq.mp hk).symm)
    | false =>
      rw [hk] at h
      simp only [List.any_cons, Bool.or_eq_true]
      exact Or.inr (ih h)

theorem hasKeyB_of_truthy_get {item : PyVal} {k : String}
    (h : truthy (pyGet item k) = true) : hasKeyB item k = true := by
  cases item with
  | dictV kvs =>
    simp only [pyGet] at h
    cases hl : kvs.lookup k with
    | none => rw [hl] at h; simp [truthy] at h
    | some x => exact lookup_imp_any hl
  | none => simp [pyGet, truthy] at h
  | boolV b => simp [pyGet, truthy] at h
  | intV n => simp [pyGet, truthy] at h
  | strV s => simp [pyGet, truthy] at h
  | listV xs => simp [pyGet, truthy] at h

theorem custom_convert_properties {idf : String} {item : PyVal} {fresh : String}
    {tf : Option (PyVal → PyVal)} {f : Feat}
    (h : custom_convert idf item fresh tf = .ok f) :
    f.properties = (convert item).properties := by
  unfold custom_convert at h
  cases hA : pyDictGet item idf with
  | error e => simp [hA] at h
  | ok a =>
    simp only [hA] at h
    split at h
    · simp only [Except.ok.injEq] at h
      subst h
      exact (applyTransform_preserves tf _).2.1
    · cases hB : pyDictGet (convert item).properties idf with
      | error e => simp [hB] at h
      | ok b =>
        simp only [hB, Except.ok.injEq] at h
        subst h
        exact (applyTransform_preserves tf _).2.1

/-- Counterexample to C8 as stated: on the single-item fetch path an item
carrying only an `attributes` mapping yields `{}` as the feature's
properties — `get_item` consults only `properties` keys (envelope or
top-level), never `attributes`, before defaulting to the empty mapping. -/
theorem C8_cex_attributes_ignored :
    get_item "OBJECTID" (some (.dictV [("c", .intV 1)])) "id5" "tok"
      (.dictV [("attributes", .dictV [("a", .intV 1)]),
               ("geometry", .dictV [("x", .intV 1), ("y", .intV 2)]),
               ("OBJECTID", .intV 5)]) Option.none
      = .ok ⟨"Feature", .intV 5,
             .dictV [("type", .strV "Point"), ("coordinates", .listV [.intV 1, .intV 2])],
             .dictV []⟩ ∧
    pyGet
      (.dictV [("attributes", .dictV [("a", .intV 1)]),
               ("geometry", .dictV [("x", .intV 1), ("y", .intV 2)]),
               ("OBJECTID", .intV 5)]) "attributes" = .dictV [("a", .intV 1)] ∧
    PyVal.dictV [("a", .intV 1)] ≠ PyVal.dictV [] :=
  ⟨rfl, rfl, by simp⟩

/-- Claim C8 (amended): the assembled feature's properties are the raw
item's attributes mapping on both query paths (standalone: the
`attributes` value with default `{}`, used as-is; library provider: the
truthy `attributes` value via the conversion), but on the single-item
fetch path the properties are re-read from the envelope's or the item's
`properties` value only — `attributes` is not consulted there — and
coerced to `{}` when absent or not a mapping. -/
theorem C8_properties_resolution :
    (∀ (idf : String) (item : PyVal) (f : SFeat),
      sa_transform_item idf item = .ok (some f) →
      pyDictGetD item "attributes" (.dictV []) = .ok f.properties) ∧
    (∀ (idf : String) (item : PyVal) (fresh : String) (tf : Option (PyVal → PyVal)) (f : Feat),
      truthy (pyGet item "attributes") = true →
      custom_convert idf item fresh tf = .ok f →
      f.properties = pyGet item "attributes") ∧
    (∀ (idf : String) (collection : Option PyVal) (item_id fresh : String) (item : PyVal)
        (tf : Option (PyVal → PyVal)) (f : Feat),
      get_item idf collection item_id fresh item tf = .ok f →
      ∃ env p1 p0,
        pyDictGetD item "feature" (.dictV []) = .ok env ∧
        pyDictGet env "properties" = .ok p1 ∧
        pyDictGet item "properties" = .ok p0 ∧
        f.properties =
          (if isDict (pyOr p1 (pyOr p0 (.dictV []))) then pyOr p1 (pyOr p0 (.dictV []))
           else .dictV [])) := by
  refine ⟨?_, ?_, ?_⟩
  · intro idf item f h
    unfold sa_transform_item at h
    cases hG : pyDictGet item "geometry" with
    | error e => simp [hG] at h
    | ok geom =>
      simp only [hG] at h
      cases hA : pyDictGetD item "attributes" (.dictV []) with
      | error e => simp [hA] at h
      | ok attrs =>
        simp only [hA] at h
        split at h
        · cases hC : sa_compute_geom geom with
          | error e => simp [hC] at h
          | ok og =>
            simp only [hC] at h
            cases hR : sa_resolve_id idf item attrs with
            | error e => simp [hR] at h
            | ok fid =>
              simp only [hR] at h
              cases og with
              | some g =>
                simp only [Except.ok.injEq, Option.some.injEq] at h
                subst h
                rfl
              | none => simp at h
        · simp at h
  · intro idf item fresh tf f hattr hconv
    have hprops : (convert item).properties = pyGet item "attributes" := by
      unfold convert
      rw [if_pos (by simp [hasKeyB_of_truthy_get hattr])]
      dsimp only
      rw [if_pos hattr]
    rw [custom_convert_properties hconv, hprops]
  · intro idf collection item_id fresh item tf f hok
    unfold get_item at hok
    by_cases hc : truthyOpt collection = true
    · rw [if_pos hc] at hok
      cases htry : get_item_try idf item_id fresh item tf with
      | error e => rw [htry] at hok; simp at hok
      | ok f1 =>
        rw [htry] at hok
        simp only [Except.ok.injEq] at hok
        subst hok
        unfold get_item_try at htry
        cases hcv : custom_convert idf item fresh tf with
        | error e => simp [hcv] at htry
        | ok f0 =>
          simp only [hcv] at htry
          cases hfi : get_item_feature_id idf item f0 with
          | error e => simp [hfi] at htry
          | ok fid0 =>
            simp only [hfi] at htry
            unfold get_item_after_id at htry
            cases hgp : get_item_geom_phase item_id item tf
                { f0 with fid := noneOr fid0 (.strV item_id) } with
            | error e => simp [hgp] at htry
            | ok f2 =>
              simp only [hgp] at htry
              cases hcp : collapse_phase { f2 with typ := "Feature" } with
              | error e => simp [hcp] at htry
              | ok f3 =>
                simp only [hcp] at htry
                unfold props_phase at htry
                cases hE : pyDictGetD item "feature" (.dictV []) with
                | error e => simp [hE] at htry
                | ok env =>
                  simp only [hE] at htry
                  cases hP1 : pyDictGet env "properties" with
                  | error e => simp [hP1] at htry
                  | ok p1 =>
                    simp only [hP1] at htry
                    cases hP0 : pyDictGet item "properties" with
                    | error e => simp [hP0] at htry
                    | ok p0 =>
                      simp only [hP0, Except.ok.injEq] at htry
                      subst htry
                      exact ⟨env, p1, p0, rfl, hP1, rfl, rfl⟩
    · rw [if_neg hc] at hok
      simp at hok

/-- Witness for the amended C8, at concrete items on all three paths. -/
theorem C8_properties_resolution_witness :
    pyDictGetD
      (.dictV [("geometry", .dictV [("x", .intV 7), ("y", .intV 46)]),
               ("attributes", .dictV [("OBJECTID", .intV 1)])])
      "attributes" (.dictV []) = .ok (.dictV [("OBJECTID", .intV 1)]) ∧
    (⟨"Feature", .intV 3, .none, .dictV [("OBJECTID", .intV 3)]⟩ : Feat).properties
      = pyGet (.dictV [("attributes", .dictV [("OBJECTID", .intV 3)])]) "attributes" ∧
    (⟨"Feature", .intV 5,
      .dictV [("type", .strV "Point"), ("coordinates", .listV [.intV 1, .intV 2])],
      .dictV []⟩ : Feat).properties = .dictV [] := by
  refine ⟨?_, ?_, ?_⟩
  · have h := C8_properties_resolution.1 "OBJECTID"
      (.dictV [("geometry", .dictV [("x", .intV 7), ("y", .intV 46)]),
               ("attributes", .dictV [("OBJECTID", .intV 1)])])
      ⟨.intV 1, Geom.point 7 46, .dictV [("OBJECTID", .intV 1)]⟩ (by rfl)
    exact h
  · exact C8_properties_resolution.2.1 "OBJECTID"
      (.dictV [("attributes", .dictV [("OBJECTID", .intV 3)])]) "tok" Option.none
      ⟨"Feature", .intV 3, .none, .dictV [("OBJECTID", .intV 3)]⟩ (by rfl) (by rfl)
  · obtain ⟨env, p1, p0, hE, hP1, hP0, hF⟩ := C8_properties_resolution.2.2 "OBJECTID"
      (some (.dictV [("c", .intV 1)])) "id5" "tok"
      (.dictV [("attributes", .dictV [("a", .intV 1)]),
               ("geometry", .dictV [("x", .intV 1), ("y", .intV 2)]),
               ("OBJECTID", .intV 5)]) Option.none
      ⟨"Feature", .intV 5,
        .dictV [("type", .strV "Point"), ("coordinates", .listV [.intV 1, .intV 2])],
        .dictV []⟩ (by rfl)
    have henv : Except.ok (PyVal.dictV []) = Except.ok env := hE
    injection henv with henv
    subst henv
    have hp1 : Except.ok PyVal.none = Except.ok p1 := hP1
    injection hp1 with hp1
    subst hp1
    have hp0 : Except.ok PyVal.none = Except.ok p0 := hP0
    injection hp0 with hp0
    subst hp0
    exact hF

/-! ## Claim C9: CRS code derivation -/

theorem string_mk_data (s : String) : String.mk s.data = s := by
  cases s
  rfl

/-- Claim C9: a configured CRS string whose maximal trailing digit run has
length 4 or 5 yields exactly that run as the spatial-reference code (as a
digit string in the library provider and as the parsed integer in the
standalone one); an absent CRS yields 4326; a nonempty CRS string with no
trailing 4-digit run yields the deterministic fallbacks — the string
`'4326'` in the library provider, and the unset marker in the standalone
provider, which the query path then treats as 4326. -/
theorem C9_crs_code_derivation :
    (∀ s : String, 4 ≤ (trailingDigits s).length → (trailingDigits s).length ≤ 5 →
      ms_default_epsg (some s) = trailingDigits s ∧
      sa_default_epsg (some s)
        = some (((parseDigits (trailingDigits s).data).getD 0 : Nat) : Int)) ∧
    (ms_default_epsg Option.none = "4326" ∧ sa_default_epsg Option.none = some 4326) ∧
    (∀ s : String, s ≠ "" → (trailingDigits s).length ≤ 3 →
      ms_default_epsg (some s) = "4326" ∧ sa_default_epsg (some s) = Option.none ∧
      sa_sr Option.none = 4326) := by
  refine ⟨?_, ⟨rfl, rfl⟩, ?_⟩
  · intro s h4 h5
    have hne : s ≠ "" := by
      intro he
      subst he
      exact absurd h4 (by decide)
    have hsearch : reSearchD45 s = some (trailingDigits s) := by
      unfold reSearchD45
      rw [if_pos h4]
      have hz : (trailingDigits s).length - 5 = 0 := Nat.sub_eq_zero_of_le h5
      rw [hz, List.drop_zero, string_mk_data]
    constructor
    · unfold ms_default_epsg
      dsimp only
      rw [if_neg hne]
      simp only [hsearch]
    · unfold sa_default_epsg
      dsimp only
      rw [if_neg hne]
      simp only [hsearch]
  · intro s hne h3
    have hsearch : reSearchD45 s = Option.none := by
      unfold reSearchD45
      rw [if_neg (by omega)]
    refine ⟨?_, ?_, rfl⟩
    · unfold ms_default_epsg
      dsimp only
      rw [if_neg hne]
      simp only [hsearch]
    · unfold sa_default_epsg
      dsimp only
      rw [if_neg hne]
      simp only [hsearch]

/-- Witness for C9: the EPSG 2056 URN yields code 2056 in both providers;
an absent CRS yields 4326; and a CRS string without a trailing digit run
yields the deterministic fallbacks. -/
theorem C9_crs_code_derivation_witness :
    ms_default_epsg (some "urn:ogc:def:crs:EPSG::2056") = "2056" ∧
    sa_default_epsg (some "urn:ogc:def:crs:EPSG::2056") = some 2056 ∧
    ms_default_epsg Option.none = "4326" ∧
    ms_default_epsg (some "EPSG:foo") = "4326" ∧
    sa_default_epsg (some "EPSG:foo") = Option.none := by
  have h1 := C9_crs_code_derivation.1 "urn:ogc:def:crs:EPSG::2056" (by decide) (by decide)
  have h3 := C9_crs_code_derivation.2.2 "EPSG:foo" (by decide) (by decide)
  refine ⟨?_, ?_, C9_crs_code_derivation.2.1.1, h3.1, h3.2.1⟩
  · rw [h1.1]
    rfl
  · rw [h1.2]
    rfl

end ArcGIS
